import Mathlib

set_option linter.unusedVariables false
set_option maxRecDepth 8192

/-!
Verification development for the AGs-plagcheck application (`src/app.py`).

The application is a single Streamlit script.  Its document-processing core
is the function `process` (src/app.py lines 177-182):

```python
def process(file_bytes, fn, enable_global):
    # Minimal version - just extract and save
    text = extract(file_bytes, fn)
    if len(text.strip()) < 200:
        return {"err": "File too short", "text": text}
    return {"text": text, "fn": fn}
```

The name `extract` is resolved at call time in the module's global
namespace; no `extract` is defined anywhere in `src/app.py`.  We embed the
body of `process` parametrically over the result of that name lookup
(`Option` of an extraction function), so the same definition covers both
the module as it stands (lookup fails, `NameError`) and the behaviour of
the body once an Extractor exists (modelled from the spec where needed).
-/

/-- Byte strings: Python `bytes` values, one `Nat` (0-255) per byte. -/
abbrev FileBytes := List Nat

/-- Python runtime errors arising in the embedded fragment. -/
inductive PyError where
  | nameError (name : String)
deriving DecidableEq, Repr

/-- Every name bound at module (global) scope anywhere in `src/app.py`:
the imports of lines 1-21 and every top-level assignment, `def`, `with`
target or loop variable in the script body.  Conditionally-bound names
(such as `user` on line 160 and the loop variables of lines 189-190) are
included; `extract` is bound nowhere. -/
def moduleNames : List String :=
  ["st", "hashlib", "re", "io", "asyncio", "aiohttp", "requests",
   "dataclass", "fitz", "nltk", "word_tokenize", "sent_tokenize",
   "TfidfVectorizer", "cosine_similarity", "SentenceTransformer", "util",
   "CrossEncoder", "GPT2Tokenizer", "GPT2LMHeadModel", "torch",
   "SequenceMatcher", "FPDF", "spacy", "create_client", "Client",
   "scholarly", "supabase_url", "supabase_key", "supabase", "logout",
   "load_embedder", "load_cross_encoder", "load_nlp", "load_tokenizer",
   "load_gpt_model", "LANGUAGES", "lang", "txt", "show_logo", "email",
   "col1", "col2", "query_params", "user", "tab1", "tab2", "tab3",
   "process", "files", "f", "res"]

/-- The five lazily constructed machine-learning model loaders of
src/app.py lines 41-61 (`@st.cache_resource` functions). -/
def mlLoaders : List String :=
  ["load_embedder", "load_cross_encoder", "load_nlp", "load_tokenizer",
   "load_gpt_model"]

/-- Whitespace test used by Python's `str.strip()`: space, tab, newline,
carriage return (the whitespace characters `Char.isWhitespace` covers). -/
def isPySpace (c : Char) : Bool := c.isWhitespace

/-- Embedding of Python's `str.strip()` (src/app.py line 180): removes
leading and trailing whitespace characters. -/
def pyStrip (s : String) : String :=
  String.mk (((s.data.dropWhile isPySpace).reverse.dropWhile
    isPySpace).reverse)

/-- Embedding of the body of `process` (src/app.py lines 177-182),
instrumented with the trace of functions its evaluation calls, in order.
`extractLookup` is the result of resolving the global name `extract`:
`none` means the name is unbound and the call raises `NameError` before
anything else runs; `some extract` supplies an extraction function.  The
body calls, in order: the global `extract` (line 179), the string method
`str.strip` and the builtin `len` (line 180).  Values are Python dicts of
string keys and string values, embedded as association lists in literal
order. -/
def processTraced (extractLookup : Option (FileBytes → String → String))
    (file_bytes : FileBytes) (fn : String) (enable_global : Bool) :
    Except PyError (List (String × String)) × List String :=
  match extractLookup with
  | none => (Except.error (PyError.nameError "extract"), ["extract"])
  | some extract =>
    let text := extract file_bytes fn
    if (pyStrip text).length < 200 then
      (Except.ok [("err", "File too short"), ("text", text)],
        ["extract", "str.strip", "len"])
    else
      (Except.ok [("text", text), ("fn", fn)],
        ["extract", "str.strip", "len"])

/-- The value `process` computes (its returned dict, or the error it
raises), given the result of the `extract` name lookup. -/
def processWith (extractLookup : Option (FileBytes → String → String))
    (file_bytes : FileBytes) (fn : String) (enable_global : Bool) :
    Except PyError (List (String × String)) :=
  (processTraced extractLookup file_bytes fn enable_global).1

/-- Result of looking up the global name `extract` in the module namespace
of `src/app.py`: the module binds no such name (see `moduleNames`), so the
lookup yields nothing. -/
def moduleExtractLookup : Option (FileBytes → String → String) := none

/-- `process` as the module actually runs it: the body of lines 177-182
with `extract` resolved against the module's own global namespace. -/
def process (file_bytes : FileBytes) (fn : String) (enable_global : Bool) :
    Except PyError (List (String × String)) :=
  processWith moduleExtractLookup file_bytes fn enable_global

/-- Modelled from the spec: the Extractor of spec 4.1 is absent from
`src/app.py` (only its caller `process` is present).  The spec fixes no
extraction formula, only that it converts raw bytes plus a declared
filename into text, so an Extractor is any such function and the claims
about `process` quantify over all of them. -/
def ExtractorModel : Type := FileBytes → String → String

/-- The extension filter passed to the upload widget on src/app.py line
186: `st.file_uploader("Upload files", type=["pdf", "docx", "txt"], ...)`. -/
def uploaderAllowedTypes : List String := ["pdf", "docx", "txt"]

/-- Outcome of attempting to submit a file of a given extension through
the upload boundary. -/
inductive UploadOutcome where
  | accepted
  | notSelectable
  | rejectedWith (err : String)
deriving DecidableEq, Repr

/-- The upload boundary of src/app.py line 186: the `type` argument of
`st.file_uploader` restricts which files the widget lets through, so a
file with a listed extension is accepted and any other file simply cannot
be submitted; the script contains no error path that produces an
`UnsupportedFormat` (or any other) error for an unsupported kind. -/
def uploadOutcome (ext : String) : UploadOutcome :=
  if ext ∈ uploaderAllowedTypes then UploadOutcome.accepted
  else UploadOutcome.notSelectable

/-- A session user: the dict stored in `st.session_state.user` (an
authenticated Supabase user or the guest dict
`{"id": "guest", "email": "guest@local"}` of line 141). -/
structure PyUser where
  id : String
  email : String
deriving DecidableEq, Repr

/-- A file returned by the upload widget: its content (`f.read()`) and its
name (`f.name`), as consumed on line 190. -/
structure UploadedFile where
  bytes : FileBytes
  name : String
deriving DecidableEq, Repr

/-- One invocation of `process` made by the tab-1 loop (line 190),
together with the session user present when it happens. -/
structure ProcessCall where
  fileBytes : FileBytes
  fn : String
  enableGlobal : Bool
  sessionUser : Option PyUser
deriving DecidableEq, Repr

/-- The inputs one top-to-bottom run of the script reads: the session
user at the start of the run (lines 32-33 default it to none), the widget
states of the sidebar (lines 120, 124, 128, 140), the auth-callback query
parameters and Supabase answer (lines 151-170), and the uploaded files
(line 186). -/
structure ScriptInput where
  user : Option PyUser
  logoutClicked : Bool
  emailText : String
  sendMagicClicked : Bool
  guestClicked : Bool
  hasAuthParams : Bool
  authUser : Option PyUser
  files : List UploadedFile
deriving Repr

/-- How one run of the script ends: stopped inside the sidebar
(`st.stop()`, line 145), aborted by `st.rerun()` (lines 38, 142, 165), or
completed, with the list of `process` invocations the tab-1 loop made. -/
inductive ScriptResult where
  | stopped
  | rerunTriggered
  | completed (calls : List ProcessCall)
deriving DecidableEq, Repr

/-- Shallow embedding of the top-to-bottom control flow of the script
body of src/app.py from the sidebar (lines 117-148) to the tabs (lines
184-195).  With a user present, clicking logout reruns (lines 120-121 via
line 38); with no user, clicking the guest button sets the user and
reruns (lines 140-142), and otherwise line 144-145 stops the script
before the tabs.  With a user and auth-callback parameters present, a
successful `get_user` reruns (lines 157-165); a failure shows an error
and falls through.  Reaching the tabs, line 190 calls
`process(f.read(), f.name, False)` once per uploaded file. -/
def runScript (inp : ScriptInput) : ScriptResult :=
  match inp.user with
  | none =>
    if inp.guestClicked then ScriptResult.rerunTriggered
    else ScriptResult.stopped
  | some u =>
    if inp.logoutClicked then ScriptResult.rerunTriggered
    else if inp.hasAuthParams && inp.authUser.isSome then
      ScriptResult.rerunTriggered
    else
      ScriptResult.completed
        (inp.files.map (fun f => ⟨f.bytes, f.name, false, some u⟩))

/-- Modelled from the spec: sentence-final punctuation for the Segmenter
of spec 4.2 (no segmenter exists in `src/app.py`; the spec asks for
locale-aware sentence boundary rules, modelled here as the standard
sentence-ending marks). -/
def isSentenceEnd (c : Char) : Bool := c = '.' || c = '!' || c = '?'

/-- Splits a character list at sentence-ending marks, the marks removed;
always yields one (possibly empty) piece more than there are marks. -/
def splitAtSentenceEnds : List Char → List (List Char)
  | [] => [[]]
  | c :: rest =>
    if isSentenceEnd c then [] :: splitAtSentenceEnds rest
    else
      match splitAtSentenceEnds rest with
      | [] => [[c]]
      | s :: ss => (c :: s) :: ss

/-- Strips leading and trailing whitespace from a character list. -/
def stripChars (cs : List Char) : List Char :=
  ((cs.dropWhile isPySpace).reverse.dropWhile isPySpace).reverse

/-- Modelled from the spec: the sentence pass of the Segmenter (spec 4.2)
on normalized text: split at sentence-ending marks, strip surrounding
whitespace, drop empty pieces. -/
def rawSentences (t : String) : List String :=
  (((splitAtSentenceEnds t.data).map stripChars).filter
    (fun cs => cs.length != 0)).map String.mk

/-- Splits a character list at whitespace (whitespace removed). -/
def splitAtSpaces : List Char → List (List Char)
  | [] => [[]]
  | c :: rest =>
    if isPySpace c then [] :: splitAtSpaces rest
    else
      match splitAtSpaces rest with
      | [] => [[c]]
      | s :: ss => (c :: s) :: ss

/-- Number of whitespace-separated tokens of a sentence. -/
def tokenCount (s : String) : Nat :=
  ((splitAtSpaces s.data).filter (fun w => w.length != 0)).length

/-- Modelled from the spec: the minimum token count below which a sentence
counts as degenerate (spec 4.2 fixes no constant; any positive choice
works, three is used here). -/
def minSentenceTokens : Nat := 3

/-- Modelled from the spec: the merge pass of the Segmenter (spec 4.2):
a degenerate sentence (fewer than `minSentenceTokens` tokens) is merged
with its following neighbour.  The fuel argument (one unit per merge or
emit step, each of which shortens the list by one) keeps the recursion
structural. -/
def mergeShortAux : Nat → List String → List String
  | _, [] => []
  | _, [s] => [s]
  | 0, l => l
  | fuel + 1, s :: t :: rest =>
    if tokenCount s < minSentenceTokens then
      mergeShortAux fuel ((s ++ " " ++ t) :: rest)
    else
      s :: mergeShortAux fuel (t :: rest)

/-- The merge pass at its full fuel: a list of `n` sentences needs at
most `n` steps. -/
def mergeShort (l : List String) : List String := mergeShortAux l.length l

/-- A Segment (spec data model): its ordered position within the document
and its span of text. -/
structure Segment where
  pos : Nat
  text : String
deriving DecidableEq, Repr

/-- Numbers a list of sentences with consecutive positions starting at
`i`. -/
def withPositions : Nat → List String → List Segment
  | _, [] => []
  | i, s :: rest => ⟨i, s⟩ :: withPositions (i + 1) rest

/-- Modelled from the spec: the Segmenter of spec 4.2 (absent from
`src/app.py`): splits normalized text into sentences, merges degenerate
sentences with a neighbour, and produces the stable ordered sequence of
Segments. -/
def segmenter (t : String) : List Segment :=
  withPositions 0 (mergeShort (rawSentences t))

/-- A corpus entry (spec data model): a previously indexed reference
document eligible to be matched against, with its creation order as id. -/
structure CorpusEntry where
  id : Nat
  text : String
deriving DecidableEq, Repr

/-- A surfaced match of the Report (spec data model): source entry,
score, excerpt. -/
structure MatchRecord where
  entryId : Nat
  score : Nat
  excerpt : String
deriving DecidableEq, Repr

/-- The texts of a document's Segments, in order. -/
def segTexts (t : String) : List String := (segmenter t).map Segment.text

/-- Modelled from the spec: the sparse-signature similarity of two
segments (spec 4.3's near-exact copy detection; no matcher exists in
`src/app.py` and the spec fixes no formula): identical segment text
scores 100, otherwise 0, on the 0-100 scale. -/
def segSim (a b : String) : Nat := if a = b then 100 else 0

/-- Best similarity of a query segment against a list of corpus
segments. -/
def bestSegScore (s : String) (cs : List String) : Nat :=
  (cs.map (segSim s)).foldr Nat.max 0

/-- Modelled from the spec: the per-entry aggregate of spec 3's
invariant, the mean of the best match per query segment (coverage
weighting degenerates to the mean for the 0/100 segment scores used
here). -/
def entryScore (docText : String) (e : CorpusEntry) : Nat :=
  let qs := segTexts docText
  if qs.length = 0 then 0
  else ((qs.map (fun s => bestSegScore s (segTexts e.text))).sum) /
    qs.length

/-- Modelled from the spec: the minimum score at which a match is
surfaced in the Report (spec 4.4's reporting threshold; no constant is
fixed by the spec). -/
def reportingThreshold : Nat := 50

/-- Excerpt surfaced for a matched entry: its first segment. -/
def excerptOf (e : CorpusEntry) : String := (segTexts e.text).headD ""

/-- Modelled from the spec: the Similarity Matcher (spec 4.4, absent from
`src/app.py`): every corpus entry whose aggregate score clears the
reporting threshold is surfaced, in corpus order, with source, score and
excerpt. -/
def matchesFor (docText : String) (corpus : List CorpusEntry) :
    List MatchRecord :=
  corpus.filterMap (fun e =>
    let sc := entryScore docText e
    if reportingThreshold ≤ sc then some ⟨e.id, sc, excerptOf e⟩
    else none)

/-- The top match of a surfaced match list: highest score, ties broken in
favour of the earliest entry (spec 4.5's deterministic tie-break by
earliest corpus-entry creation). -/
def topMatchOf : List MatchRecord → Option MatchRecord
  | [] => none
  | m :: rest =>
    match topMatchOf rest with
    | none => some m
    | some t => if m.score < t.score then some t else some m

/-- Modelled from the spec: the document-level similarity percentage
(spec 4.7 / spec 3 invariant): the mean over the document's segments of
the best match per segment against all corpus segments. -/
def docSimilarity (docText : String) (corpus : List CorpusEntry) : Nat :=
  let qs := segTexts docText
  if qs.length = 0 then 0
  else ((qs.map (fun s =>
    bestSegScore s (corpus.flatMap (fun e => segTexts e.text)))).sum) /
    qs.length

/-- A Report (spec data model): overall similarity percentage and the
ordered list of surfaced matches. -/
structure Report where
  similarity : Nat
  matchList : List MatchRecord
deriving DecidableEq, Repr

/-- Modelled from the spec: the Aggregator (spec 4.7, absent from
`src/app.py`): builds the Report from the document text and the corpus. -/
def makeReport (docText : String) (corpus : List CorpusEntry) : Report :=
  ⟨docSimilarity docText corpus, matchesFor docText corpus⟩

/-- C2: `process` raises `NameError` on every input: `extract` is bound
nowhere at module scope in `src/app.py`, so the first statement of the
body (line 179) fails before the length check, and `process` never
returns normally on any input. -/
theorem c2_process_always_nameError :
    moduleNames.contains "extract" = false ∧
    ∀ (file_bytes : FileBytes) (fn : String) (enable_global : Bool),
      process file_bytes fn enable_global =
        Except.error (PyError.nameError "extract") := by
  refine ⟨by decide, ?_⟩
  intro file_bytes fn enable_global
  rfl

/-- C4: the `enable_global` argument is a no-op: for every resolution of
`extract`, every file content and every filename, `process` with
`enable_global = True` and with `enable_global = False` produce identical
results (the body of lines 177-182 never reads `enable_global`; the sole
call site, line 190, always passes `False`). -/
theorem c4_enable_global_noop :
    ∀ (extractLookup : Option (FileBytes → String → String))
      (file_bytes : FileBytes) (fn : String),
      processWith extractLookup file_bytes fn true =
        processWith extractLookup file_bytes fn false := by
  intro extractLookup file_bytes fn
  cases extractLookup <;> rfl

/-- C3: no invocation of `process` ever calls a lazily constructed
machine-learning model loader: whatever `extract` resolves to, the trace
of the body consists only of the extraction call and (when extraction
succeeds) the strip/length check, and it is disjoint from the five model
loaders of lines 41-61, which are all defined at module scope but never
invoked by `process`. -/
theorem c3_no_model_calls :
    ∀ (extractLookup : Option (FileBytes → String → String))
      (file_bytes : FileBytes) (fn : String) (enable_global : Bool),
      ((processTraced extractLookup file_bytes fn enable_global).2.all
          (fun c => !(mlLoaders.contains c)) = true) ∧
      mlLoaders.all (fun m => moduleNames.contains m) = true := by
  intro extractLookup file_bytes fn enable_global
  refine ⟨?_, by decide⟩
  cases extractLookup with
  | none => rfl
  | some extract =>
    by_cases h : (pyStrip (extract file_bytes fn)).length < 200 <;>
      simp [processTraced, h, mlLoaders]

/-- C1: for every Extractor and every input whose extracted text, after
stripping surrounding whitespace, is shorter than 200 characters, the
body of `process` returns a dict containing the key `"err"` (the
TooShort-style rejection of line 181) and not the success shape
`{"text": ..., "fn": ...}` of line 182; no further result is produced. -/
theorem c1_too_short_err (E : ExtractorModel) (file_bytes : FileBytes)
    (fn : String) (enable_global : Bool)
    (h : (pyStrip (E file_bytes fn)).length < 200) :
    ∃ kvs, processWith (some E) file_bytes fn enable_global = Except.ok kvs ∧
      "err" ∈ kvs.map Prod.fst ∧ kvs.map Prod.fst ≠ ["text", "fn"] := by
  refine ⟨[("err", "File too short"), ("text", E file_bytes fn)], ?_, ?_, ?_⟩
  · simp [processWith, processTraced, h]
  · simp
  · simp

/-- Witness for `c1_too_short_err` at a concrete short extraction. -/
theorem c1_too_short_err_witness :
    ∃ kvs, processWith (some (fun _ _ => "hi")) [] "a.txt" false =
        Except.ok kvs ∧
      "err" ∈ kvs.map Prod.fst ∧ kvs.map Prod.fst ≠ ["text", "fn"] :=
  c1_too_short_err (fun _ _ => "hi") [] "a.txt" false (by decide)

/-- C9: the TooShort rejection still carries the full extracted text: for
every Extractor and every input whose stripped extracted text is shorter
than 200 characters, the body of `process` returns exactly
`{"err": "File too short", "text": text}` (line 181), exposing the
extracted content to the caller. -/
theorem c9_err_dict_exposes_text (E : ExtractorModel)
    (file_bytes : FileBytes) (fn : String) (enable_global : Bool)
    (h : (pyStrip (E file_bytes fn)).length < 200) :
    processWith (some E) file_bytes fn enable_global =
      Except.ok [("err", "File too short"), ("text", E file_bytes fn)] := by
  simp [processWith, processTraced, h]

/-- Witness for `c9_err_dict_exposes_text` at a concrete short
extraction. -/
theorem c9_err_dict_exposes_text_witness :
    processWith (some (fun _ _ => "abc")) [1, 2] "b.pdf" true =
      Except.ok [("err", "File too short"), ("text", "abc")] :=
  c9_err_dict_exposes_text (fun _ _ => "abc") [1, 2] "b.pdf" true (by decide)

/-- C5: for every Extractor and every input whose stripped extracted text
has length at least 200, the body of `process` returns exactly
`{"text": text, "fn": fn}` (line 182): only the extracted text and the
original filename, with no similarity percentage, AI-likelihood score or
match list. -/
theorem c5_long_input_success (E : ExtractorModel) (file_bytes : FileBytes)
    (fn : String) (enable_global : Bool)
    (h : 200 ≤ (pyStrip (E file_bytes fn)).length) :
    processWith (some E) file_bytes fn enable_global =
      Except.ok [("text", E file_bytes fn), ("fn", fn)] := by
  have h2 : ¬ (pyStrip (E file_bytes fn)).length < 200 := Nat.not_lt.mpr h
  simp [processWith, processTraced, h2]

/-- Witness for `c5_long_input_success` at a concrete 200-character
extraction. -/
theorem c5_long_input_success_witness :
    processWith (some (fun _ _ => String.mk (List.replicate 200 'a')))
        [] "c.docx" false =
      Except.ok [("text", String.mk (List.replicate 200 'a')),
        ("fn", "c.docx")] :=
  c5_long_input_success (fun _ _ => String.mk (List.replicate 200 'a'))
    [] "c.docx" false (by decide)

/-- C6 counterexample: an upload of another kind (extension `exe`) is not
rejected with an `UnsupportedFormat` error as the claim states; the
widget merely refuses the file. -/
theorem c6_unsupported_format_counterexample :
    uploadOutcome "exe" = UploadOutcome.notSelectable ∧
    uploadOutcome "exe" ≠ UploadOutcome.rejectedWith "UnsupportedFormat" := by
  decide

/-- C6 (amended): the upload boundary accepts exactly the extensions pdf,
docx and txt, and any upload of another kind is refused by the widget's
type filter rather than rejected with an error: no upload ever produces an
`UnsupportedFormat` (or any other) rejection error. -/
theorem c6_upload_boundary_amended :
    (∀ ext : String,
      uploadOutcome ext = UploadOutcome.accepted ↔
        ext ∈ uploaderAllowedTypes) ∧
    ∀ (ext e : String), uploadOutcome ext ≠ UploadOutcome.rejectedWith e := by
  constructor
  · intro ext
    constructor
    · intro h
      by_contra hmem
      simp [uploadOutcome, hmem] at h
    · intro hmem
      simp [uploadOutcome, hmem]
  · intro ext e
    unfold uploadOutcome
    split <;> intro h <;> cases h

/-- C10: the document-check tab is reachable only with a user in the
session: a run that starts with `st.session_state.user = None` stops (or
reruns) inside the sidebar and makes no `process` call, so every
invocation of `process` happens with a non-None session user. -/
theorem c10_process_requires_user :
    (∀ (inp : ScriptInput) (calls : List ProcessCall),
      runScript inp = ScriptResult.completed calls →
        inp.user.isSome = true ∧
        calls.all (fun c => c.sessionUser.isSome) = true) ∧
    ∀ inp : ScriptInput, inp.user = none →
      runScript inp = ScriptResult.stopped ∨
        runScript inp = ScriptResult.rerunTriggered := by
  constructor
  · intro inp calls h
    unfold runScript at h
    cases hu : inp.user with
    | none =>
      rw [hu] at h
      by_cases hg : inp.guestClicked <;> simp [hg] at h
    | some u =>
      rw [hu] at h
      refine ⟨rfl, ?_⟩
      by_cases hl : inp.logoutClicked
      · simp [hl] at h
      · by_cases ha : inp.hasAuthParams && inp.authUser.isSome
        · simp [hl, ha] at h
        · simp only [hl, ha, if_false, Bool.false_eq_true] at h
          cases h
          simp [List.all_eq_true, List.mem_map]
  · intro inp hu
    unfold runScript
    rw [hu]
    by_cases hg : inp.guestClicked
    · right; simp [hg]
    · left; simp [hg]

/-- Witness for `c10_process_requires_user` at a concrete run: the guest
user with one uploaded file completes and calls `process` with that user
present. -/
theorem c10_process_requires_user_witness :
    (some (PyUser.mk "guest" "guest@local")).isSome = true ∧
    ([ProcessCall.mk [7] "d.txt" false
        (some (PyUser.mk "guest" "guest@local"))].all
      (fun c => c.sessionUser.isSome)) = true :=
  c10_process_requires_user.1
    ⟨some ⟨"guest", "guest@local"⟩, false, "", false, false, false, none,
      [⟨[7], "d.txt"⟩]⟩
    [⟨[7], "d.txt", false, some ⟨"guest", "guest@local"⟩⟩] (by decide)

theorem withPositions_length (l : List String) :
    ∀ i, (withPositions i l).length = l.length := by
  induction l with
  | nil => intro i; rfl
  | cons s rest ih =>
    intro i
    simp [withPositions, ih]

theorem withPositions_map_pos (l : List String) :
    ∀ i, (withPositions i l).map Segment.pos = List.range' i l.length := by
  induction l with
  | nil => intro i; rfl
  | cons s rest ih =>
    intro i
    simp only [withPositions, List.map_cons, List.length_cons, ih,
      List.range'_succ]

/-- C7: segmentation is deterministic and ordered: running the segmenter
twice on the same normalized text yields identical Segment sequences (the
segmenter is a pure function with no randomness and no unordered
iteration), and the positions of the produced Segments are exactly
0, 1, ..., in order. -/
theorem c7_segmenter_deterministic :
    ∀ t : String, segmenter t = segmenter t ∧
      (segmenter t).map Segment.pos = List.range (segmenter t).length := by
  intro t
  refine ⟨rfl, ?_⟩
  unfold segmenter
  rw [withPositions_map_pos, withPositions_length, List.range_eq_range']

theorem segSim_self (s : String) : segSim s s = 100 := by
  simp [segSim]

theorem segSim_le (a b : String) : segSim a b ≤ 100 := by
  unfold segSim
  split <;> omega

theorem foldr_max_le {l : List Nat} {b : Nat} (h : ∀ x ∈ l, x ≤ b) :
    l.foldr Nat.max 0 ≤ b := by
  induction l with
  | nil => exact Nat.zero_le b
  | cons a rest ih =>
    simp only [List.foldr_cons]
    exact Nat.max_le.mpr ⟨h a (List.mem_cons_self a rest),
      ih (fun x hx => h x (List.mem_cons_of_mem a hx))⟩

theorem le_foldr_max {l : List Nat} {x : Nat} (h : x ∈ l) :
    x ≤ l.foldr Nat.max 0 := by
  induction l with
  | nil => cases h
  | cons a rest ih =>
    simp only [List.foldr_cons]
    rcases List.mem_cons.mp h with h1 | h2
    · subst h1
      exact Nat.le_max_left x _
    · exact Nat.le_trans (ih h2) (Nat.le_max_right a _)

theorem bestSegScore_le (s : String) (cs : List String) :
    bestSegScore s cs ≤ 100 := by
  apply foldr_max_le
  intro x hx
  rcases List.mem_map.mp hx with ⟨c, _, hc⟩
  exact hc ▸ segSim_le s c

theorem bestSegScore_of_mem {s : String} {cs : List String} (h : s ∈ cs) :
    bestSegScore s cs = 100 := by
  apply Nat.le_antisymm (bestSegScore_le s cs)
  have : segSim s s ∈ cs.map (segSim s) := List.mem_map.mpr ⟨s, h, rfl⟩
  have := le_foldr_max this
  rw [segSim_self] at this
  exact this

theorem sum_map_eq_const {α : Type} {l : List α} {f : α → Nat} {c : Nat}
    (h : ∀ x ∈ l, f x = c) : (l.map f).sum = c * l.length := by
  induction l with
  | nil => simp
  | cons a rest ih =>
    simp only [List.map_cons, List.sum_cons, List.length_cons]
    rw [h a (List.mem_cons_self a rest),
      ih (fun x hx => h x (List.mem_cons_of_mem a hx))]
    ring

theorem sum_map_le_const {α : Type} {l : List α} {f : α → Nat} {c : Nat}
    (h : ∀ x ∈ l, f x ≤ c) : (l.map f).sum ≤ c * l.length := by
  induction l with
  | nil => simp
  | cons a rest ih =>
    simp only [List.map_cons, List.sum_cons, List.length_cons]
    have ha := h a (List.mem_cons_self a rest)
    have hr := ih (fun x hx => h x (List.mem_cons_of_mem a hx))
    calc f a + (rest.map f).sum ≤ c + c * rest.length := by omega
      _ = c * (rest.length + 1) := by ring

theorem entryScore_of_dup {docText : String} {e : CorpusEntry}
    (ht : e.text = docText) (hne : segTexts docText ≠ []) :
    entryScore docText e = 100 := by
  unfold entryScore
  have hlen : (segTexts docText).length ≠ 0 :=
    fun h0 => hne (List.eq_nil_of_length_eq_zero h0)
  simp only [hlen, if_false]
  rw [ht]
  rw [sum_map_eq_const
    (fun s hs => bestSegScore_of_mem hs)]
  exact Nat.mul_div_left 100 (Nat.pos_of_ne_zero hlen)

theorem entryScore_le (docText : String) (e : CorpusEntry) :
    entryScore docText e ≤ 100 := by
  unfold entryScore
  by_cases h0 : (segTexts docText).length = 0
  · simp [h0]
  · simp only [h0, if_false]
    calc ((segTexts docText).map
          (fun s => bestSegScore s (segTexts e.text))).sum /
          (segTexts docText).length
        ≤ 100 * (segTexts docText).length / (segTexts docText).length :=
          Nat.div_le_div_right
            (sum_map_le_const (fun s _ => bestSegScore_le s (segTexts e.text)))
      _ = 100 := Nat.mul_div_left 100 (Nat.pos_of_ne_zero h0)

theorem mem_matchesFor_of_dup {docText : String} {corpus : List CorpusEntry}
    {e : CorpusEntry} (he : e ∈ corpus) (ht : e.text = docText)
    (hne : segTexts docText ≠ []) :
    MatchRecord.mk e.id 100 (excerptOf e) ∈ matchesFor docText corpus := by
  apply List.mem_filterMap.mpr
  refine ⟨e, he, ?_⟩
  simp only [entryScore_of_dup ht hne]
  norm_num [reportingThreshold]

theorem matchesFor_score_le {docText : String} {corpus : List CorpusEntry}
    {m : MatchRecord} (h : m ∈ matchesFor docText corpus) : m.score ≤ 100 := by
  rcases List.mem_filterMap.mp h with ⟨e, _, he⟩
  simp only at he
  by_cases hth : reportingThreshold ≤ entryScore docText e
  · rw [if_pos hth, Option.some.injEq] at he
    subst he
    exact entryScore_le docText e
  · rw [if_neg hth] at he
    cases he

theorem topMatchOf_mem {ms : List MatchRecord} {t : MatchRecord}
    (h : topMatchOf ms = some t) : t ∈ ms := by
  induction ms with
  | nil => cases h
  | cons m rest ih =>
    rcases hr : topMatchOf rest with _ | t'
    · simp only [topMatchOf, hr, Option.some.injEq] at h
      subst h
      exact List.mem_cons_self m rest
    · simp only [topMatchOf, hr] at h
      by_cases hc : m.score < t'.score
      · rw [if_pos hc, Option.some.injEq] at h
        subst h
        exact List.mem_cons_of_mem m (ih hr)
      · rw [if_neg hc, Option.some.injEq] at h
        subst h
        exact List.mem_cons_self m rest

theorem topMatchOf_ge {ms : List MatchRecord} {m : MatchRecord}
    (h : m ∈ ms) : ∃ t, topMatchOf ms = some t ∧ m.score ≤ t.score := by
  induction ms with
  | nil => cases h
  | cons a rest ih =>
    rcases List.mem_cons.mp h with h1 | h2
    · subst h1
      rcases hr : topMatchOf rest with _ | t'
      · exact ⟨m, by simp [topMatchOf, hr], Nat.le_refl _⟩
      · by_cases hc : m.score < t'.score
        · exact ⟨t', by simp [topMatchOf, hr, hc], Nat.le_of_lt hc⟩
        · exact ⟨m, by simp [topMatchOf, hr, hc], Nat.le_refl _⟩
    · rcases ih h2 with ⟨t', ht', hle⟩
      by_cases hc : a.score < t'.score
      · exact ⟨t', by simp [topMatchOf, ht', hc], hle⟩
      · exact ⟨a, by simp [topMatchOf, ht', hc],
          Nat.le_trans hle (Nat.le_of_not_lt hc)⟩

theorem docSimilarity_of_dup {docText : String} {corpus : List CorpusEntry}
    {e : CorpusEntry} (he : e ∈ corpus) (ht : e.text = docText)
    (hne : segTexts docText ≠ []) :
    docSimilarity docText corpus = 100 := by
  unfold docSimilarity
  have hlen : (segTexts docText).length ≠ 0 :=
    fun h0 => hne (List.eq_nil_of_length_eq_zero h0)
  simp only [hlen, if_false]
  rw [sum_map_eq_const (fun s hs => bestSegScore_of_mem
    (List.mem_flatMap.mpr ⟨e, he, ht ▸ hs⟩))]
  exact Nat.mul_div_left 100 (Nat.pos_of_ne_zero hlen)

/-- C8 (amended): a document compared against a corpus containing an
exact duplicate of itself yields an overall similarity percentage of at
least 95 (in fact 100), the duplicate entry is surfaced in the match
list with its excerpt and a score of 100, and the top match of the
Report attains that maximal score of 100.  The top match need not be the
duplicate entry itself: a non-duplicate entry whose segments cover all
of the document's segments scores equally, and an equal scorer ranking
earlier wins the tie (spec 4.5 breaks ties toward the earliest entry) --
see the counterexample to the unamended claim. -/
theorem c8_duplicate_top_match (docText : String)
    (corpus : List CorpusEntry) (e : CorpusEntry)
    (he : e ∈ corpus) (ht : e.text = docText)
    (hne : segTexts docText ≠ []) :
    95 ≤ (makeReport docText corpus).similarity ∧
    (MatchRecord.mk e.id 100 (excerptOf e) ∈
      (makeReport docText corpus).matchList) ∧
    ∃ t, topMatchOf (makeReport docText corpus).matchList = some t ∧
      t.score = 100 := by
  have hm := mem_matchesFor_of_dup he ht hne
  refine ⟨?_, hm, ?_⟩
  · show 95 ≤ docSimilarity docText corpus
    rw [docSimilarity_of_dup he ht hne]
    omega
  · rcases topMatchOf_ge hm with ⟨t, htop, hge⟩
    exact ⟨t, htop,
      Nat.le_antisymm (matchesFor_score_le (topMatchOf_mem htop)) hge⟩

/-- Witness for `c8_duplicate_top_match` at a concrete two-sentence
document whose exact duplicate is the sole corpus entry. -/
theorem c8_duplicate_top_match_witness :
    95 ≤ (makeReport "alpha beta gamma. delta epsilon zeta."
      [CorpusEntry.mk 1 "alpha beta gamma. delta epsilon zeta."]).similarity ∧
    (MatchRecord.mk 1 100
        (excerptOf (CorpusEntry.mk 1 "alpha beta gamma. delta epsilon zeta.")) ∈
      (makeReport "alpha beta gamma. delta epsilon zeta."
        [CorpusEntry.mk 1 "alpha beta gamma. delta epsilon zeta."]).matchList) ∧
    ∃ t, topMatchOf (makeReport "alpha beta gamma. delta epsilon zeta."
        [CorpusEntry.mk 1 "alpha beta gamma. delta epsilon zeta."]).matchList =
        some t ∧ t.score = 100 :=
  c8_duplicate_top_match "alpha beta gamma. delta epsilon zeta."
    [CorpusEntry.mk 1 "alpha beta gamma. delta epsilon zeta."]
    (CorpusEntry.mk 1 "alpha beta gamma. delta epsilon zeta.")
    (by decide) rfl (by decide)

/-- C8 counterexample: the exact duplicate need not be surfaced as the
top match, refuting the unamended claim.  Against the corpus whose entry
0 strictly contains the document (every document segment plus one more,
so it is not a duplicate) and whose entry 1 is the exact duplicate, the
claim's hypotheses hold (the duplicate is in the corpus, its text equals
the document's, the document has segments), yet the top match is entry
0, not the duplicate entry 1. -/
theorem c8_duplicate_not_top_counterexample :
    (CorpusEntry.mk 1 "alpha beta gamma. delta epsilon zeta." ∈
      [CorpusEntry.mk 0
        "alpha beta gamma. delta epsilon zeta. eta theta iota.",
       CorpusEntry.mk 1 "alpha beta gamma. delta epsilon zeta."]) ∧
    (CorpusEntry.mk 1 "alpha beta gamma. delta epsilon zeta.").text =
      "alpha beta gamma. delta epsilon zeta." ∧
    segTexts "alpha beta gamma. delta epsilon zeta." ≠ [] ∧
    (CorpusEntry.mk 0
        "alpha beta gamma. delta epsilon zeta. eta theta iota.").text ≠
      "alpha beta gamma. delta epsilon zeta." ∧
    (topMatchOf (makeReport "alpha beta gamma. delta epsilon zeta."
        [CorpusEntry.mk 0
          "alpha beta gamma. delta epsilon zeta. eta theta iota.",
         CorpusEntry.mk 1
           "alpha beta gamma. delta epsilon zeta."]).matchList).map
      MatchRecord.entryId = some 0 ∧
    (0 : Nat) ≠ 1 := by
  refine ⟨by decide, rfl, by decide, by decide, by decide, by decide⟩
